import Mathlib

/-!
Verification of the guide/docs document-serving feature
(`src/services/guide/service.py` and `src/services/guide/templates.py`).

The Python code is shallowly embedded: strings are Lean `String`s (lists of
characters), the filesystem is an explicit record of query functions, the
third-party markdown library is a pure function parameter, and Python
exceptions become `Except` values.  Each definition mirrors one Python
function and keeps its name (leading underscores dropped).
-/

namespace Guide

/-! ### Python string primitives

Helpers modelling the Python `str` operations used by the service, on
character lists / Lean strings. -/

/-- Python `pat in s` substring test on character lists. -/
def hasSub (pat : List Char) : List Char → Bool
  | [] => pat.isEmpty
  | c :: cs => pat.isPrefixOf (c :: cs) || hasSub pat cs

/-- Python `s.strip(c)` for a single strip character: remove every leading
and trailing occurrence of `c`. -/
def pyStrip (c : Char) (l : List Char) : List Char :=
  ((l.dropWhile (· == c)).reverse.dropWhile (· == c)).reverse

/-- Python `s.split(sep)` for a one-character separator.  Note Python's
convention: splitting the empty string gives `[""]`, never `[]`. -/
def pySplit (c : Char) : List Char → List (List Char)
  | [] => [[]]
  | x :: xs =>
    match pySplit c xs with
    | [] => [[]]
    | h :: t => if x == c then [] :: h :: t else (x :: h) :: t

/-- Python `s.title()` restricted to ASCII casing: a letter after a
non-letter is uppercased, a letter after a letter is lowercased. -/
def pyTitleAux : Bool → List Char → List Char
  | _, [] => []
  | prevCased, c :: cs =>
    if c.isAlpha then
      (if prevCased then c.toLower else c.toUpper) :: pyTitleAux true cs
    else
      c :: pyTitleAux false cs

/-- String-level wrapper for `pyTitleAux`. -/
def pyTitle (s : String) : String := ⟨pyTitleAux false s.toList⟩

/-- Python `s.replace("-", " ")` (single-character pattern). -/
def pyReplaceDash (s : String) : String :=
  ⟨s.toList.map (fun c => if c == '-' then ' ' else c)⟩

/-- Python `s in t` substring test, lifted to `String`. -/
def strHas (pat s : String) : Bool := hasSub pat.toList s.toList

/-- Python `s.startswith(pat)`. -/
def strStarts (s pat : String) : Bool := pat.toList.isPrefixOf s.toList

/-- Python `s.endswith(pat)`. -/
def strEnds (s pat : String) : Bool :=
  pat.toList.reverse.isPrefixOf s.toList.reverse

/-- Python `c in s` for a single character. -/
def strHasChar (s : String) (c : Char) : Bool := s.toList.contains c

/-- Python `s.lower()` restricted to ASCII casing. -/
def strLower (s : String) : String := ⟨s.toList.map Char.toLower⟩

/-- Python `s.strip(c)` lifted to `String`. -/
def pyStripStr (s : String) (c : Char) : String := ⟨pyStrip c s.toList⟩

/-- Python `s.split(c)` lifted to `String`. -/
def pySplitStr (s : String) (c : Char) : List String :=
  (pySplit c s.toList).map String.mk

/-- Python slice `s[:-n]`. -/
def dropRightStr (s : String) (n : Nat) : String :=
  ⟨s.toList.take (s.toList.length - n)⟩

/-- Python slice `s[n:]`. -/
def dropLeftStr (s : String) (n : Nat) : String := ⟨s.toList.drop n⟩

/-- Python `sep.join(parts)`. -/
def joinWith (sep : String) : List String → String
  | [] => ""
  | [x] => x
  | x :: y :: xs => x ++ sep ++ joinWith sep (y :: xs)

/-! ### Errors and data model -/

/-- The guide service's exceptions (`exceptions.py`), with the message the
Python code attaches. -/
inductive GuideError where
  | invalidPath (msg : String)
  | documentNotFound (msg : String)
deriving DecidableEq

/-- Structured HTTP error: status code plus the `detail` string, as produced
by `HTTPException` in the Python service. -/
structure HttpError where
  status : Nat
  detail : String
deriving DecidableEq

/-- The fragment of `DocumentMetadata` (models.py) the service computes. -/
structure DocumentMetadata where
  title : String
  path : String
  breadcrumbs : List String
deriving DecidableEq

/-- Service state: the configured documentation directory
(`DocumentService.__init__`). -/
structure DocumentService where
  docs_dir : String

/-! ### Path validation (`_validate_path`, `_validate_asset_path`) -/

/-- The characters rejected by both validators. -/
def invalidChars : List Char := ['<', '>', '|', ':', '*', '?']

/-- `DocumentService._validate_path`.  `esc` is the filesystem-dependent
containment check (`(docs_dir / clean_path).resolve()` escaping the docs
root, or `resolve` itself raising); it is a parameter because the shallow
embedding has no real filesystem.  Note that in the source an
`InvalidPathError` raised for an escaping path is itself caught by the
surrounding `except Exception`, so the message on that branch is always
`"Invalid path: {path}"`. -/
def validate_path (esc : String → Bool) (path : String) :
    Except GuideError String :=
  if path = "" then .ok "index"
  else
    let cleanPath := pyStripStr path '/'
    if strHas ".." cleanPath ||
        invalidChars.any (fun c => strHasChar cleanPath c) then
      .error (.invalidPath ("Invalid characters in path: " ++ path))
    else if esc cleanPath then
      .error (.invalidPath ("Invalid path: " ++ path))
    else
      .ok cleanPath

/-- `DocumentService._validate_asset_path`. -/
def validate_asset_path (assetPath : String) : Except GuideError String :=
  if assetPath = "" then .error (.invalidPath "Asset path cannot be empty")
  else
    let cleanPath := pyStripStr assetPath '/'
    if strHas ".." cleanPath ||
        invalidChars.any (fun c => strHasChar cleanPath c) then
      .error (.invalidPath ("Invalid characters in asset path: " ++ assetPath))
    else
      .ok cleanPath

/-! ### Document metadata (`_get_document_metadata`) -/

/-- `DocumentService._get_document_metadata`. -/
def get_document_metadata (path : String) : DocumentMetadata :=
  let pathParts := if path ≠ "index" then pySplitStr path '/' else ["index"]
  let lastPart := pathParts.getLastD ""
  let breadcrumbs :=
    if path ≠ "index" then
      "Home" :: pathParts.dropLast.map (fun p => pyTitle (pyReplaceDash p))
        ++ [pyTitle (pyReplaceDash lastPart)]
    else ["Home"]
  let title :=
    if path = "index" then "Documentation Home"
    else pyTitle (pyReplaceDash lastPart)
  { title := title, path := path, breadcrumbs := breadcrumbs }

/-! ### Relative link rewriting (`_process_relative_links`)

The two regex substitutions are embedded faithfully.  Both patterns
(`\[([^\]]+)\]\(([^)]+)\)` and `!\[([^\]]*)\]\(([^)]+)\)`) use negated
character classes before their closing delimiters, so matching at a given
position is deterministic: take the maximal run of non-`]` (resp. non-`)`)
characters and require the closing delimiter next.  `re.sub` scans left to
right, replaces each leftmost non-overlapping match, and never rescans the
replacement text; `subScan` below implements exactly that scan, with the
input length as fuel (each step consumes at least one character). -/

/-- Match of the link pattern `\[([^\]]+)\]\(([^)]+)\)` at the head of the
input: returns the two capture groups and the remaining input. -/
def matchLink : List Char → Option (String × String × List Char)
  | '[' :: rest =>
    let text := rest.takeWhile (· != ']')
    match rest.dropWhile (· != ']') with
    | ']' :: '(' :: r2 =>
      if text.isEmpty then none
      else
        let url := r2.takeWhile (· != ')')
        match r2.dropWhile (· != ')') with
        | ')' :: r4 =>
          if url.isEmpty then none else some (⟨text⟩, ⟨url⟩, r4)
        | _ => none
    | _ => none
  | _ => none

/-- Match of the image pattern `!\[([^\]]*)\]\(([^)]+)\)` at the head of the
input (the alt text may be empty). -/
def matchImage : List Char → Option (String × String × List Char)
  | '!' :: '[' :: rest =>
    let alt := rest.takeWhile (· != ']')
    match rest.dropWhile (· != ']') with
    | ']' :: '(' :: r2 =>
      let url := r2.takeWhile (· != ')')
      match r2.dropWhile (· != ')') with
      | ')' :: r4 =>
        if url.isEmpty then none else some (⟨alt⟩, ⟨url⟩, r4)
      | _ => none
    | _ => none
  | _ => none

/-- Left-to-right non-overlapping substitution scan of `re.sub`: at each
position try the pattern; on a match emit the replacement and resume after
the match, otherwise emit the character and advance by one. -/
def subScan (tryMatch : List Char → Option (String × String × List Char))
    (repl : String → String → String) : Nat → List Char → List Char
  | 0, l => l
  | _ + 1, [] => []
  | n + 1, c :: cs =>
    match tryMatch (c :: cs) with
    | some (g1, g2, rest) => (repl g1 g2).toList ++ subScan tryMatch repl n rest
    | none => c :: subScan tryMatch repl n cs

/-- The `replace_link` closure inside `_process_relative_links`: rewrites one
matched `[text](url)` given the current document path. -/
def replace_link (currentPath text url : String) : String :=
  if strStarts url "http://" || strStarts url "https://" ||
      strStarts url "#" || strStarts url "/" then
    "[" ++ text ++ "](" ++ url ++ ")"
  else
    let newPath :=
      if strStarts url "../" then
        let currentParts :=
          if currentPath ≠ "index" then (pySplitStr currentPath '/').dropLast
          else []
        let relativeUrl := dropLeftStr url 3
        if currentParts ≠ [] then
          joinWith "/" (currentParts ++ [relativeUrl])
        else relativeUrl
      else
        let currentDir :=
          if strHasChar currentPath '/' then
            joinWith "/" (pySplitStr currentPath '/').dropLast
          else ""
        if currentDir ≠ "" then currentDir ++ "/" ++ url else url
    let newPath2 :=
      if strEnds newPath ".md" then dropRightStr newPath 3 else newPath
    "[" ++ text ++ "](/guide/" ++ newPath2 ++ ")"

/-- The image extensions recognised by `replace_image`. -/
def imageExts : List String := [".jpg", ".jpeg", ".png", ".gif", ".svg", ".webp"]

/-- The `replace_image` closure inside `_process_relative_links`: rewrites
one matched `![alt](url)`. -/
def replace_image (altText url : String) : String :=
  if strStarts url "http://" || strStarts url "https://" ||
      strStarts url "/" then
    "![" ++ altText ++ "](" ++ url ++ ")"
  else if strStarts url "assets/" then
    "![" ++ altText ++ "](/guide/" ++ url ++ ")"
  else if !strStarts url "../" &&
      imageExts.any (fun ext => strEnds (strLower url) ext) then
    "![" ++ altText ++ "](/guide/assets/" ++ url ++ ")"
  else
    "![" ++ altText ++ "](" ++ url ++ ")"

/-- `DocumentService._process_relative_links`: the link substitution pass
followed by the image substitution pass over its result. -/
def process_relative_links (markdownContent currentPath : String) : String :=
  let l0 := markdownContent.toList
  let l1 := subScan matchLink (replace_link currentPath) l0.length l0
  let l2 := subScan matchImage replace_image l1.length l1
  ⟨l2⟩

/-! ### Markdown rendering (`_markdown_to_html`) -/

/-- The `codehilite` extension configuration passed by the service. -/
structure CodehiliteConfig where
  css_class : String
  use_pygments : Bool
deriving DecidableEq

/-- The third-party `markdown.markdown` function, modelled as a pure
function of the content, the enabled extension list and the codehilite
configuration.  (The library itself is outside this repository.) -/
abbrev MarkdownLib := String → List String → CodehiliteConfig → String

/-- The extension list the service enables, in source order. -/
def markdownExtensions : List String :=
  ["codehilite", "fenced_code", "tables", "toc", "attr_list", "def_list"]

/-- The codehilite configuration the service passes: CSS classes only, no
Pygments execution. -/
def codehiliteConfig : CodehiliteConfig :=
  { css_class := "highlight", use_pygments := false }

/-- `DocumentService._markdown_to_html`: calls the markdown library with the
fixed extension list and configuration.  It reads nothing from the service
state `svc`. -/
def markdown_to_html (svc : DocumentService) (lib : MarkdownLib)
    (content : String) : String :=
  lib content markdownExtensions codehiliteConfig

/-! ### HTML templates (`templates.py`) -/

/-- The pieces produced by the loop of `_generate_breadcrumb_html`.  The
first argument tells whether we are at index 0 (the "Home" entry); the
second is the running `current_path` accumulator. -/
def crumbPieces (baseUrl : String) : Bool → String → List String → List String
  | _, _, [] => []
  | _, _, [b] => ["<span class=\"breadcrumb-current\">" ++ b ++ "</span>"]
  | true, cur, b :: bs =>
    ("<a href=\"" ++ baseUrl ++ "/\">" ++ b ++ "</a>") ::
      crumbPieces baseUrl false cur bs
  | false, cur, b :: bs =>
    ("<a href=\"" ++ (cur ++ "/" ++ b) ++ "\">" ++ b ++ "</a>") ::
      crumbPieces baseUrl false (cur ++ "/" ++ b) bs

/-- `_generate_breadcrumb_html`. -/
def generate_breadcrumb_html (breadcrumbs : List String) (baseUrl : String) :
    String :=
  if breadcrumbs.isEmpty then ""
  else joinWith " / " (crumbPieces baseUrl true baseUrl breadcrumbs)

/-- The literal stylesheet returned by `_get_css_styles`.  Its exact text is
a constant CSS string no claim depends on; it is kept abstract here as an
arbitrary fixed constant to avoid transcribing ~150 lines of CSS. -/
def css_styles : String := "CSS_STYLES"

/-- `generate_html_template`: the full page shell, built exactly as the
source f-string concatenates it. -/
def generate_html_template (title content : String)
    (breadcrumbs : List String) (baseUrl : String) : String :=
  let breadcrumbHtml := generate_breadcrumb_html breadcrumbs baseUrl
  "<!DOCTYPE html>\n<html lang=\"en\">\n<head>\n    <meta charset=\"UTF-8\">\n" ++
  "    <meta name=\"viewport\" content=\"width=device-width, initial-scale=1.0\">\n" ++
  "    <title>" ++ title ++ " - Documentation</title>\n    <style>\n        " ++
  css_styles ++ "\n    </style>\n</head>\n<body>\n    <nav class=\"breadcrumb\">\n        " ++
  breadcrumbHtml ++ "\n    </nav>\n    <main class=\"content\">\n        " ++
  content ++ "\n    </main>\n</body>\n</html>"

/-! ### Filesystem model and the serving pipeline -/

/-- The filesystem queries the service makes, as pure functions: existence
(`Path.exists`), regular-file test (`Path.is_file`) and reading
(`aiofiles.open(...).read()`, `none` meaning the read raises). -/
structure FS where
  existsAt : String → Bool
  isFile : String → Bool
  read : String → Option String

/-- A successful read of candidate `p`: the file exists, is a regular file,
and reading it succeeds. -/
def readableFile (fs : FS) (p : String) : Option String :=
  if fs.existsAt p && fs.isFile p then fs.read p else none

/-- The candidate loop of `_read_markdown_file`: try each candidate in
order; a candidate that exists and is a regular file is read, and a read
error falls through to the next candidate. -/
def read_candidates (fs : FS) : List String → String → Except GuideError String
  | [], path => .error (.documentNotFound ("Document not found: " ++ path))
  | p :: ps, path =>
    if fs.existsAt p && fs.isFile p then
      match fs.read p with
      | some content => .ok content
      | none => read_candidates fs ps path
    else read_candidates fs ps path

/-- `DocumentService._read_markdown_file`: candidates `<docs>/<path>.md`
then `<docs>/<path>/index.md`. -/
def read_markdown_file (fs : FS) (docsDir path : String) :
    Except GuideError String :=
  read_candidates fs
    [docsDir ++ "/" ++ path ++ ".md", docsDir ++ "/" ++ path ++ "/index.md"]
    path

/-- `DocumentService.serve_markdown_document`: the request pipeline, with
the source's exception-to-status mapping (`DocumentNotFoundError` to 404,
`InvalidPathError` to 400, the detail being the exception message). -/
def serve_markdown_document (fs : FS) (esc : String → Bool)
    (lib : MarkdownLib) (svc : DocumentService) (path : String) :
    Except HttpError String :=
  match validate_path esc path with
  | .error (.invalidPath msg) => .error { status := 400, detail := msg }
  | .error (.documentNotFound msg) => .error { status := 404, detail := msg }
  | .ok safePath =>
    let metadata := get_document_metadata safePath
    match read_markdown_file fs svc.docs_dir safePath with
    | .error (.documentNotFound msg) => .error { status := 404, detail := msg }
    | .error (.invalidPath msg) => .error { status := 400, detail := msg }
    | .ok markdownContent =>
      let processedContent := process_relative_links markdownContent safePath
      let htmlContent := markdown_to_html svc lib processedContent
      .ok (generate_html_template metadata.title htmlContent
            metadata.breadcrumbs "/guide")

/-- The file response produced for a successfully served asset. -/
structure AssetResponse where
  path : String
  media_type : String
  cacheControl : String
  xContentTypeOptions : String
deriving DecidableEq

/-- The body of the `try` block of `serve_static_asset`: any raised
exception (including the `HTTPException(404)` for a missing file and the
`InvalidPathError` from validation) is an `.error`. -/
def serve_static_asset_inner (fs : FS) (guessMime : String → Option String)
    (docsDir assetPath : String) : Except String AssetResponse :=
  match validate_asset_path assetPath with
  | .error _ => .error "InvalidPathError"
  | .ok safePath =>
    let fullPath := docsDir ++ "/assets/" ++ safePath
    if fs.existsAt fullPath && fs.isFile fullPath then
      let mimeType := (guessMime fullPath).getD "application/octet-stream"
      .ok { path := fullPath, media_type := mimeType,
            cacheControl := "public, max-age=3600",
            xContentTypeOptions := "nosniff" }
    else
      .error "HTTPException 404 Asset not found"

/-- `DocumentService.serve_static_asset`: the surrounding
`except Exception` catches every exception raised in the body — including
the function's own `HTTPException(status_code=404)` — and converts it to a
500 "Error serving asset". -/
def serve_static_asset (fs : FS) (guessMime : String → Option String)
    (docsDir assetPath : String) : Except HttpError AssetResponse :=
  match serve_static_asset_inner fs guessMime docsDir assetPath with
  | .ok r => .ok r
  | .error _ => .error { status := 500, detail := "Error serving asset" }

/-- An empty filesystem: nothing exists, nothing is a file, every read
fails.  Used to instantiate the filesystem-parametric theorems. -/
def emptyFS : FS :=
  { existsAt := fun _ => false, isFile := fun _ => false,
    read := fun _ => none }

/-! ### Supporting lemmas -/

/-- `hasSub` decides the infix (substring) relation. -/
theorem hasSub_iff (pat l : List Char) : hasSub pat l = true ↔ pat <:+: l := by
  induction l with
  | nil =>
    simp [hasSub, List.isEmpty_iff]
  | cons c cs ih =>
    rw [hasSub]
    simp [List.infix_cons_iff, ih, List.isPrefixOf_iff_prefix, Bool.or_eq_true]

/-- An occurrence of `".."` survives dropping leading `'/'` characters,
because neither of its characters is `'/'`. -/
theorem infix_dotdot_dropWhile {l : List Char} (h : ['.', '.'] <:+: l) :
    ['.', '.'] <:+: l.dropWhile (· == '/') := by
  induction l with
  | nil => simp at h
  | cons c cs ih =>
    rcases List.infix_cons_iff.mp h with hp | hi
    · obtain ⟨t, ht⟩ := hp
      cases ht
      rw [List.dropWhile_cons, if_neg (by decide)]
      exact h
    · rw [List.dropWhile_cons]
      by_cases hc : (c == '/') = true
      · rw [if_pos hc]
        exact ih hi
      · rw [if_neg hc]
        exact h

/-- An occurrence of `".."` survives Python's `strip("/")`. -/
theorem infix_dotdot_pyStrip {l : List Char} (h : ['.', '.'] <:+: l) :
    ['.', '.'] <:+: pyStrip '/' l := by
  unfold pyStrip
  have h1 := infix_dotdot_dropWhile h
  have h2 : ['.', '.'] <:+: (l.dropWhile (· == '/')).reverse := by
    simpa using List.reverse_infix.mpr h1
  have h3 := infix_dotdot_dropWhile h2
  simpa using List.reverse_infix.mpr h3

/-! ### Claim theorems -/

/-- Claim C5: every document-path or asset-path input containing the
literal substring `..` is rejected by the corresponding validator with an
`InvalidPath` error, regardless of the rest of the input. -/
theorem dotdot_always_invalid (esc : String → Bool) (path : String)
    (h : strHas ".." path = true) :
    validate_path esc path =
      .error (.invalidPath ("Invalid characters in path: " ++ path)) ∧
    validate_asset_path path =
      .error (.invalidPath ("Invalid characters in asset path: " ++ path)) := by
  have hne : path ≠ "" := by
    intro he
    rw [he] at h
    exact absurd h (by decide)
  have hclean : strHas ".." (pyStripStr path '/') = true := by
    have h1 : ['.', '.'] <:+: path.toList := (hasSub_iff _ _).mp h
    exact (hasSub_iff _ _).mpr (infix_dotdot_pyStrip h1)
  constructor
  · unfold validate_path
    rw [if_neg hne]
    simp only [hclean, Bool.true_or, if_true]
  · unfold validate_asset_path
    rw [if_neg hne]
    simp only [hclean, Bool.true_or, if_true]

/-- Witness for C5 at the concrete traversal input `../../etc/passwd`. -/
theorem dotdot_always_invalid_witness :
    strHas ".." "../../etc/passwd" = true ∧
    validate_path (fun _ => false) "../../etc/passwd" =
      .error (.invalidPath ("Invalid characters in path: " ++ "../../etc/passwd")) ∧
    validate_asset_path "../../etc/passwd" =
      .error (.invalidPath ("Invalid characters in asset path: " ++ "../../etc/passwd")) :=
  ⟨by decide,
   (dotdot_always_invalid (fun _ => false) "../../etc/passwd" (by decide)).1,
   (dotdot_always_invalid (fun _ => false) "../../etc/passwd" (by decide)).2⟩

/-- Claim C6: the empty document path validates to the logical path
`"index"` (for every containment oracle, since the empty case returns
before any filesystem check), while the empty asset path is an error. -/
theorem empty_document_path_is_index_empty_asset_path_fails :
    (∀ esc : String → Bool, validate_path esc "" = .ok "index") ∧
    validate_asset_path "" = .error (.invalidPath "Asset path cannot be empty") :=
  ⟨fun _ => rfl, rfl⟩

/-- Claim C9: the markdown renderer is a pure function of the content: it
reads nothing from the service state (the only per-request state in scope),
so any two invocations on the same content — in particular two successive
renders — produce identical output. -/
theorem markdown_to_html_deterministic (lib : MarkdownLib) (content : String)
    (svc1 svc2 : DocumentService) :
    markdown_to_html svc1 lib content = markdown_to_html svc2 lib content :=
  rfl

/-- Counterexample to claim C4 as stated: the enabled extension list does
contain `def_list` and `attr_list`. -/
theorem def_list_attr_list_enabled :
    ¬ ("def_list" ∉ markdownExtensions ∧ "attr_list" ∉ markdownExtensions) := by
  decide

/-- Claim C4 (amended): `_markdown_to_html` calls the markdown library with
exactly the extensions `codehilite`, `fenced_code`, `tables`, `toc`,
`attr_list` and `def_list`, configuring codehilite with CSS class
`highlight` and `use_pygments = False` (no server-side highlighting
execution). -/
theorem markdown_to_html_fixed_extension_call (svc : DocumentService)
    (lib : MarkdownLib) (content : String) :
    markdown_to_html svc lib content =
      lib content ["codehilite", "fenced_code", "tables", "toc", "attr_list", "def_list"]
        { css_class := "highlight", use_pygments := false } :=
  rfl

/-- Claim C1 evaluation: the link-pattern pass matches the `[Logo](logo.png)`
inside the image syntax first (the `!` is not excluded by the link regex) and
rewrites it as a document link, so the output is
`![Logo](/guide/guide/logo.png)` — not the spec's
`![Logo](/guide/assets/logo.png)`. -/
theorem image_crossmatched_by_link_pass :
    process_relative_links "![Logo](logo.png)" "guide/intro" =
      "![Logo](/guide/guide/logo.png)" := by
  decide

/-- Counterexample to claim C2 as stated: on the literal round-trip case the
rewritten target is `/guide/a/other`, which does not end in `/guide/other`. -/
theorem back_link_not_one_level_up :
    process_relative_links "[Back](../other)" "a/b" = "[Back](/guide/a/other)" ∧
    strEnds "/guide/a/other" "/guide/other" = false := by
  decide

/-- Claim C2 (amended): processing the literal content `[Back](../other)`
while serving path `a/b` yields `[Back](/guide/a/other)`: the `../` target
is resolved by dropping only the last segment of the document path (giving
directory `a`) and joining, so the target ends in `/a/other`. -/
theorem back_link_resolved_in_document_directory :
    process_relative_links "[Back](../other)" "a/b" = "[Back](/guide/a/other)" ∧
    strEnds "/guide/a/other" "/a/other" = true := by
  decide

/-- Claim C10: a non-empty document path consisting only of `/` characters
strips to the empty string, which is not the empty *input*, so validation
returns `""` rather than `"index"`; metadata derived for `""` then has an
empty title and a trailing empty breadcrumb label. -/
theorem slash_only_path_validates_to_empty (esc : String → Bool)
    (path : String) (h1 : path ≠ "") (h2 : ∀ c ∈ path.toList, c = '/')
    (h3 : esc "" = false) :
    validate_path esc path = .ok "" ∧
    get_document_metadata "" =
      { title := "", path := "", breadcrumbs := ["Home", ""] } := by
  have hstrip : pyStrip '/' path.toList = [] := by
    unfold pyStrip
    have hd : path.toList.dropWhile (· == '/') = [] := by
      rw [List.dropWhile_eq_nil_iff]
      intro x hx
      simp [h2 x hx]
    rw [hd]
    rfl
  have hclean : pyStripStr path '/' = "" := by
    unfold pyStripStr
    rw [hstrip]
  constructor
  · unfold validate_path
    rw [if_neg h1]
    simp only [hclean]
    have hc : (strHas ".." "" ||
        invalidChars.any (fun c => strHasChar "" c)) = false := by decide
    simp only [hc, if_false, h3, Bool.false_eq_true]
  · rfl

/-- Witness for C10 at the concrete input `"/"`. -/
theorem slash_only_path_validates_to_empty_witness :
    ("/" : String) ≠ "" ∧ (∀ c ∈ ("/" : String).toList, c = '/') ∧
    ((fun _ : String => false) "" = false) ∧
    (validate_path (fun _ => false) "/" = .ok "" ∧
     get_document_metadata "" =
       { title := "", path := "", breadcrumbs := ["Home", ""] }) :=
  ⟨by decide, by decide, rfl,
   slash_only_path_validates_to_empty (fun _ => false) "/" (by decide)
     (by decide) rfl⟩

/-- Claim C3 evaluation: when the validated asset path names a file that
does not exist (or is not a regular file), the `HTTPException(404)` raised
inside the `try` block is caught by the function's own `except Exception`
handler, so the request is answered with HTTP 500 "Error serving asset" —
not with the intended 404. -/
theorem missing_asset_served_as_500 (fs : FS)
    (guessMime : String → Option String) (docsDir assetPath safePath : String)
    (hv : validate_asset_path assetPath = .ok safePath)
    (hm : (fs.existsAt (docsDir ++ "/assets/" ++ safePath) &&
           fs.isFile (docsDir ++ "/assets/" ++ safePath)) = false) :
    serve_static_asset fs guessMime docsDir assetPath =
      .error { status := 500, detail := "Error serving asset" } := by
  unfold serve_static_asset serve_static_asset_inner
  rw [hv]
  simp only [hm, Bool.false_eq_true, if_false]

/-- Witness for C3: an empty assets directory and the asset path
`logo.png`. -/
theorem missing_asset_served_as_500_witness :
    validate_asset_path "logo.png" = .ok "logo.png" ∧
    (emptyFS.existsAt ("docs" ++ "/assets/" ++ "logo.png") &&
      emptyFS.isFile ("docs" ++ "/assets/" ++ "logo.png")) = false ∧
    serve_static_asset emptyFS (fun _ => none) "docs" "logo.png" =
      .error { status := 500, detail := "Error serving asset" } :=
  ⟨rfl, rfl,
   missing_asset_served_as_500 emptyFS (fun _ => none) "docs" "logo.png"
     "logo.png" rfl rfl⟩

/-- Claim C7: given a validated document path, `_read_markdown_file` tries
`<docs>/<path>.md` then `<docs>/<path>/index.md` in that order and returns
the first candidate that exists, is a regular file and reads successfully;
when neither candidate yields content it fails with `DocumentNotFound`,
which `serve_markdown_document` surfaces as HTTP 404. -/
theorem document_lookup_order_and_404 (fs : FS) (esc : String → Bool)
    (lib : MarkdownLib) (svc : DocumentService) (path safePath : String)
    (hv : validate_path esc path = .ok safePath) :
    (read_markdown_file fs svc.docs_dir safePath =
      match readableFile fs (svc.docs_dir ++ "/" ++ safePath ++ ".md") with
      | some content => .ok content
      | none =>
        match readableFile fs (svc.docs_dir ++ "/" ++ safePath ++ "/index.md") with
        | some content => .ok content
        | none =>
          .error (.documentNotFound ("Document not found: " ++ safePath))) ∧
    (readableFile fs (svc.docs_dir ++ "/" ++ safePath ++ ".md") = none →
     readableFile fs (svc.docs_dir ++ "/" ++ safePath ++ "/index.md") = none →
     serve_markdown_document fs esc lib svc path =
       .error { status := 404, detail := "Document not found: " ++ safePath }) := by
  have heq : read_markdown_file fs svc.docs_dir safePath =
      match readableFile fs (svc.docs_dir ++ "/" ++ safePath ++ ".md") with
      | some content => .ok content
      | none =>
        match readableFile fs (svc.docs_dir ++ "/" ++ safePath ++ "/index.md") with
        | some content => .ok content
        | none =>
          .error (.documentNotFound ("Document not found: " ++ safePath)) := by
    simp only [read_markdown_file, read_candidates, readableFile]
    by_cases h1 : (fs.existsAt (svc.docs_dir ++ "/" ++ safePath ++ ".md") &&
        fs.isFile (svc.docs_dir ++ "/" ++ safePath ++ ".md")) = true
    · rw [if_pos h1, if_pos h1]
      cases fs.read (svc.docs_dir ++ "/" ++ safePath ++ ".md") with
      | some content => rfl
      | none =>
        by_cases h2 : (fs.existsAt (svc.docs_dir ++ "/" ++ safePath ++ "/index.md") &&
            fs.isFile (svc.docs_dir ++ "/" ++ safePath ++ "/index.md")) = true
        · rw [if_pos h2, if_pos h2]
        · rw [if_neg h2, if_neg h2]
    · rw [if_neg h1, if_neg h1]
      by_cases h2 : (fs.existsAt (svc.docs_dir ++ "/" ++ safePath ++ "/index.md") &&
          fs.isFile (svc.docs_dir ++ "/" ++ safePath ++ "/index.md")) = true
      · rw [if_pos h2, if_pos h2]
      · rw [if_neg h2, if_neg h2]
  refine ⟨heq, fun hn1 hn2 => ?_⟩
  unfold serve_markdown_document
  rw [hv]
  simp only []
  rw [heq, hn1, hn2]

/-- Witness for C7: the request path `missing-doc` against an empty
filesystem is served as a 404 with a not-found message. -/
theorem document_lookup_order_and_404_witness :
    validate_path (fun _ => false) "missing-doc" = .ok "missing-doc" ∧
    (read_markdown_file emptyFS (DocumentService.mk "docs").docs_dir "missing-doc" =
      match readableFile emptyFS
          ((DocumentService.mk "docs").docs_dir ++ "/" ++ "missing-doc" ++ ".md") with
      | some content => .ok content
      | none =>
        match readableFile emptyFS
            ((DocumentService.mk "docs").docs_dir ++ "/" ++ "missing-doc" ++ "/index.md") with
        | some content => .ok content
        | none =>
          .error (.documentNotFound ("Document not found: " ++ "missing-doc"))) ∧
    (readableFile emptyFS
        ((DocumentService.mk "docs").docs_dir ++ "/" ++ "missing-doc" ++ ".md") = none →
     readableFile emptyFS
        ((DocumentService.mk "docs").docs_dir ++ "/" ++ "missing-doc" ++ "/index.md") = none →
     serve_markdown_document emptyFS (fun _ => false) (fun c _ _ => c)
        (DocumentService.mk "docs") "missing-doc" =
       .error { status := 404, detail := "Document not found: " ++ "missing-doc" }) :=
  ⟨rfl,
   (document_lookup_order_and_404 emptyFS (fun _ => false) (fun c _ _ => c)
      (DocumentService.mk "docs") "missing-doc" "missing-doc" rfl).1,
   (document_lookup_order_and_404 emptyFS (fun _ => false) (fun c _ _ => c)
      (DocumentService.mk "docs") "missing-doc" "missing-doc" rfl).2⟩

/-- Closed form of the breadcrumb loop after the "Home" entry: starting
from accumulator `cur`, entry `i` of the remaining labels is a link whose
href folds the labels up to and including its own onto `cur`, except the
final entry, which is plain text. -/
theorem crumbPieces_false_spec (baseUrl : String) :
    ∀ (bs : List String) (cur : String), bs ≠ [] →
    crumbPieces baseUrl false cur bs =
      (List.range bs.length).map (fun i =>
        if i = bs.length - 1 then
          "<span class=\"breadcrumb-current\">" ++ bs.getD i "" ++ "</span>"
        else
          "<a href=\"" ++
            (bs.take (i + 1)).foldl (fun acc b => acc ++ "/" ++ b) cur ++
            "\">" ++ bs.getD i "" ++ "</a>") := by
  intro bs
  induction bs with
  | nil => intro cur h; exact absurd rfl h
  | cons b bs ih =>
    intro cur _
    cases bs with
    | nil => simp [crumbPieces, List.range_succ]
    | cons b2 bs2 =>
      rw [show crumbPieces baseUrl false cur (b :: b2 :: bs2) =
            ("<a href=\"" ++ (cur ++ "/" ++ b) ++ "\">" ++ b ++ "</a>") ::
              crumbPieces baseUrl false (cur ++ "/" ++ b) (b2 :: bs2) from rfl]
      rw [ih (cur ++ "/" ++ b) (by simp)]
      rw [show (b :: b2 :: bs2).length = (b2 :: bs2).length + 1 from rfl]
      rw [List.range_succ_eq_map, List.map_cons, List.map_map]
      congr 1
      apply List.map_congr_left
      intro j hj
      have hn : (b2 :: bs2).length = bs2.length + 1 := rfl
      simp only [Function.comp]
      have hiff : (Nat.succ j = (b2 :: bs2).length + 1 - 1) ↔
          (j = (b2 :: bs2).length - 1) := by omega
      by_cases hc : j = (b2 :: bs2).length - 1
      · rw [if_pos (hiff.mpr hc), if_pos hc]
        rfl
      · rw [if_neg (fun hx => hc (hiff.mp hx)), if_neg hc]
        rfl

/-- Claim C8: for every non-empty breadcrumb list, every entry except the
last renders as a link and the last as plain text; the first entry links to
the guide root itself (`baseUrl ++ "/"`), and each intermediate entry's
href joins the raw display labels accumulated so far (positions 1 up to the
entry itself) onto the guide root — labels, not original path segments. -/
theorem breadcrumb_html_structure (baseUrl : String) (bs : List String)
    (h : bs ≠ []) :
    generate_breadcrumb_html bs baseUrl =
      joinWith " / " ((List.range bs.length).map (fun i =>
        if i = bs.length - 1 then
          "<span class=\"breadcrumb-current\">" ++ bs.getD i "" ++ "</span>"
        else if i = 0 then
          "<a href=\"" ++ baseUrl ++ "/\">" ++ bs.getD i "" ++ "</a>"
        else
          "<a href=\"" ++
            ((bs.drop 1).take i).foldl (fun acc b => acc ++ "/" ++ b) baseUrl ++
            "\">" ++ bs.getD i "" ++ "</a>")) := by
  cases bs with
  | nil => exact absurd rfl h
  | cons b bs2 =>
    cases bs2 with
    | nil => simp [generate_breadcrumb_html, crumbPieces, joinWith]
    | cons b2 bs3 =>
      unfold generate_breadcrumb_html
      rw [if_neg (by simp)]
      rw [show crumbPieces baseUrl true baseUrl (b :: b2 :: bs3) =
            ("<a href=\"" ++ baseUrl ++ "/\">" ++ b ++ "</a>") ::
              crumbPieces baseUrl false baseUrl (b2 :: bs3) from rfl]
      rw [crumbPieces_false_spec baseUrl (b2 :: bs3) baseUrl (by simp)]
      congr 1
      rw [show (b :: b2 :: bs3).length = (b2 :: bs3).length + 1 from rfl]
      rw [List.range_succ_eq_map, List.map_cons, List.map_map]
      congr 1
      apply List.map_congr_left
      intro j hj
      have hn : (b2 :: bs3).length = bs3.length + 1 := rfl
      simp only [Function.comp]
      have hiff : (Nat.succ j = (b2 :: bs3).length + 1 - 1) ↔
          (j = (b2 :: bs3).length - 1) := by omega
      have hnz : ¬ (Nat.succ j = 0) := Nat.succ_ne_zero j
      by_cases hc : j = (b2 :: bs3).length - 1
      · rw [if_pos (hiff.mpr hc), if_pos hc]
        rfl
      · rw [if_neg (fun hx => hc (hiff.mp hx)), if_neg hc,
            if_neg hnz]
        rfl

/-- Witness for C8 at a concrete four-entry breadcrumb list. -/
theorem breadcrumb_html_structure_witness :
    (["Home", "Alpha", "Beta", "Gamma"] : List String) ≠ [] ∧
    generate_breadcrumb_html ["Home", "Alpha", "Beta", "Gamma"] "/guide" =
      joinWith " / " ((List.range (["Home", "Alpha", "Beta", "Gamma"] : List String).length).map (fun i =>
        if i = (["Home", "Alpha", "Beta", "Gamma"] : List String).length - 1 then
          "<span class=\"breadcrumb-current\">" ++
            (["Home", "Alpha", "Beta", "Gamma"] : List String).getD i "" ++ "</span>"
        else if i = 0 then
          "<a href=\"" ++ "/guide" ++ "/\">" ++
            (["Home", "Alpha", "Beta", "Gamma"] : List String).getD i "" ++ "</a>"
        else
          "<a href=\"" ++
            (((["Home", "Alpha", "Beta", "Gamma"] : List String).drop 1).take i).foldl
              (fun acc b => acc ++ "/" ++ b) "/guide" ++
            "\">" ++ (["Home", "Alpha", "Beta", "Gamma"] : List String).getD i "" ++ "</a>")) :=
  ⟨by decide,
   breadcrumb_html_structure "/guide" ["Home", "Alpha", "Beta", "Gamma"]
     (by decide)⟩

end Guide
